import Mathlib

/-!
Shallow embedding of the `quanta` timestamp and mock-clock core
(`src/instant.rs`, `src/mock.rs`).

Machine integers (`u64`) are modelled as `Nat` together with explicit
`% U64_MOD` reductions wherever the Rust code wraps, and validity
hypotheses (`< U64_MOD`) wherever a theorem needs them.  A Rust function
that can panic is modelled as returning `Option`, with `none` standing
for the panic.
-/

/-- The modulus of the unsigned 64-bit integers: 2 to the power 64. -/
def U64_MOD : Nat := 18446744073709551616

/-- Rust `u64::checked_add`: `some` of the sum when it stays below 2^64,
`none` on overflow. -/
def checked_add_u64 (a b : Nat) : Option Nat :=
  if a + b < U64_MOD then some (a + b) else none

/-- Rust `u64::checked_sub`: `some` of the difference when `b ≤ a`,
`none` on underflow. -/
def checked_sub_u64 (a b : Nat) : Option Nat :=
  if b ≤ a then some (a - b) else none

/-- Rust `u64::fetch_add` / wrapping addition: the sum reduced mod 2^64. -/
def wrapping_add_u64 (a b : Nat) : Nat := (a + b) % U64_MOD

/-- Rust `u64::fetch_sub` / wrapping subtraction: `(a - b)` mod 2^64,
computed on `Nat` as `(a + (2^64 - b % 2^64)) % 2^64`. -/
def wrapping_sub_u64 (a b : Nat) : Nat :=
  (a + (U64_MOD - b % U64_MOD)) % U64_MOD

/-- Rust `std::time::Duration`: whole seconds plus sub-second nanoseconds
(a valid value has `secs < 2^64` and `nanos < 10^9`). -/
structure Duration where
  secs : Nat
  nanos : Nat
deriving DecidableEq

/-- Rust `Duration::as_nanos`: the total nanosecond count as a `u128`
(never overflows 128 bits for valid durations). -/
def Duration.as_nanos (d : Duration) : Nat :=
  d.secs * 1000000000 + d.nanos

/-- Rust `Duration::from_nanos`: builds a duration from a `u64`
nanosecond count. -/
def Duration.from_nanos (n : Nat) : Duration :=
  ⟨n / 1000000000, n % 1000000000⟩

/-- Rust `Duration::new(0, 0)`, the zero duration. -/
def Duration.zero : Duration := ⟨0, 0⟩

/-- The `IntoNanoseconds` impl for `Duration` in `mock.rs`, and the
operand conversion `duration.as_nanos() as u64` in `instant.rs`: the
`u128 -> u64` cast truncates to the low 64 bits. -/
def Duration.into_nanos (d : Duration) : Nat :=
  d.as_nanos % U64_MOD

/-- Rust `quanta::Instant`: a newtype over a `u64` nanosecond count since
the Unix epoch. -/
structure Instant where
  val : Nat
deriving DecidableEq

/-- `Instant::duration_since`: `self.0.checked_sub(earlier.0)` mapped
through `Duration::from_nanos`; the `.expect(...)` panic on underflow is
modelled by `none`. -/
def Instant.duration_since (self earlier : Instant) : Option Duration :=
  (checked_sub_u64 self.val earlier.val).map Duration.from_nanos

/-- `Instant::checked_duration_since`: as `duration_since` but `none` is
returned to the caller instead of panicking. -/
def Instant.checked_duration_since (self earlier : Instant) : Option Duration :=
  (checked_sub_u64 self.val earlier.val).map Duration.from_nanos

/-- `Instant::saturating_duration_since`:
`checked_duration_since(earlier).unwrap_or_else(|| Duration::new(0, 0))`. -/
def Instant.saturating_duration_since (self earlier : Instant) : Duration :=
  (self.checked_duration_since earlier).getD Duration.zero

/-- `Instant::checked_add`:
`self.0.checked_add(duration.as_nanos() as u64).map(Instant)`. -/
def Instant.checked_add (self : Instant) (d : Duration) : Option Instant :=
  (checked_add_u64 self.val d.into_nanos).map Instant.mk

/-- `Instant::checked_sub`:
`self.0.checked_sub(duration.as_nanos() as u64).map(Instant)`. -/
def Instant.checked_sub (self : Instant) (d : Duration) : Option Instant :=
  (checked_sub_u64 self.val d.into_nanos).map Instant.mk

/-- The `Add<Duration>` operator: `checked_add(other).expect(...)`; the
panic on overflow is modelled by `none`. -/
def Instant.add (self : Instant) (d : Duration) : Option Instant :=
  self.checked_add d

/-- The `AddAssign<Duration>` operator: `self.0 + other.as_nanos() as u64`
on raw `u64`s.  Overflow in Rust's `+` operator is a program error
(it panics under overflow checks); it is modelled by `none`. -/
def Instant.add_assign (self : Instant) (d : Duration) : Option Instant :=
  (checked_add_u64 self.val d.into_nanos).map Instant.mk

/-- The `Sub<Duration>` operator: `checked_sub(other).expect(...)`; the
panic on underflow is modelled by `none`. -/
def Instant.sub (self : Instant) (d : Duration) : Option Instant :=
  self.checked_sub d

/-- The `SubAssign<Duration>` operator: `self.0 - other.as_nanos() as u64`
on raw `u64`s; underflow is a program error, modelled by `none`. -/
def Instant.sub_assign (self : Instant) (d : Duration) : Option Instant :=
  (checked_sub_u64 self.val d.into_nanos).map Instant.mk

/-- The `Sub<Instant>` operator: defined as `self.duration_since(other)`. -/
def Instant.sub_instant (self other : Instant) : Option Duration :=
  self.duration_since other

/-- The `Ord` impl: `self.0.cmp(&other.0)`, unsigned integer comparison. -/
def Instant.cmp (self other : Instant) : Ordering :=
  if self.val < other.val then Ordering.lt
  else if self.val = other.val then Ordering.eq
  else Ordering.gt

/-- The strict order induced by the `Ord` impl (`a < b` in Rust). -/
def Instant.lt (a b : Instant) : Prop :=
  Instant.cmp a b = Ordering.lt

instance (a b : Instant) : Decidable (Instant.lt a b) := by
  unfold Instant.lt
  infer_instance

/-- The derived `PartialEq` impl: field-wise equality of the inner `u64`. -/
def Instant.beq (a b : Instant) : Bool :=
  a.val == b.val

/-- `Instant::as_u64`: the raw inner value. -/
def Instant.as_u64 (self : Instant) : Nat := self.val

/-- The heap-and-thread state needed by `mock.rs`: `regs` maps each
allocated register (an `Arc<AtomicU64>`, identified by allocation index)
to its current `u64` value, `nextId` is the next fresh index, and
`current` is the thread-local `CURRENT_MOCK` slot holding the identity of
the thread's active register. -/
structure MockState where
  regs : Nat → Nat
  nextId : Nat
  current : Nat

/-- The state of a thread on which no `Mock` was ever created: the
thread-local initializer allocates a private register (index 0) holding 0. -/
def MockState.init : MockState :=
  ⟨fun _ => 0, 1, 0⟩

/-- Rust `quanta::Mock`: a handle wrapping an `Arc<AtomicU64>`, modelled
by the identity of the register it references. -/
structure Mock where
  offset : Nat
deriving DecidableEq

/-- `Mock::new`: allocates a fresh register initialized to 0 and installs
it in the thread-local `CURRENT_MOCK` slot; returns the handle and the
updated state. -/
def Mock.new (st : MockState) : Mock × MockState :=
  (⟨st.nextId⟩,
   ⟨fun i => if i = st.nextId then 0 else st.regs i, st.nextId + 1, st.nextId⟩)

/-- Cloning a `Mock` clones the `Arc`: the clone references the very same
register. -/
def Mock.clone (m : Mock) : Mock := m

/-- `Mock::recent`:
`CURRENT_MOCK.try_with(|cur| cur.borrow().load(Acquire)).unwrap_or(0)`.
The flag `tls_ok` records whether thread-local access succeeds (it fails
during thread teardown). -/
def Mock.recent (st : MockState) (tls_ok : Bool) : Nat :=
  if tls_ok then st.regs st.current else 0

/-- `Mock::increment`: `fetch_add` of the nanosecond amount on the
handle's register (wrapping `u64` addition). -/
def Mock.increment (m : Mock) (amount : Nat) (st : MockState) : MockState :=
  ⟨fun i => if i = m.offset then wrapping_add_u64 (st.regs i) amount else st.regs i,
   st.nextId, st.current⟩

/-- `Mock::decrement`: `fetch_sub` of the nanosecond amount on the
handle's register (wrapping `u64` subtraction). -/
def Mock.decrement (m : Mock) (amount : Nat) (st : MockState) : MockState :=
  ⟨fun i => if i = m.offset then wrapping_sub_u64 (st.regs i) amount else st.regs i,
   st.nextId, st.current⟩

/-- `Mock::value`: `load(Acquire)` of the handle's register. -/
def Mock.value (m : Mock) (st : MockState) : Nat :=
  st.regs m.offset

/-- `Instant::recent`: loads the process-wide `GLOBAL_RECENT` cache
(`global_recent`); when nonzero returns it directly, otherwise falls back
to `Mock::recent` on the current thread. -/
def Instant.recent (global_recent : Nat) (st : MockState) (tls_ok : Bool) : Instant :=
  if global_recent ≠ 0 then ⟨global_recent⟩ else ⟨Mock.recent st tls_ok⟩

/-- C1: `Instant::recent` returns the process-wide recent-time cache value
when that value is nonzero; when the cache holds 0 it returns the current
thread's active register value (the active mock's register when one
exists); on a thread where no mock was ever created, or when thread-local
access fails, it returns 0. -/
theorem c1_recent (g : Nat) (st : MockState) (tls : Bool) :
    (g ≠ 0 → Instant.recent g st tls = ⟨g⟩) ∧
    (g = 0 → Instant.recent g st true = ⟨st.regs st.current⟩) ∧
    (g = 0 → Instant.recent g MockState.init tls = ⟨0⟩) ∧
    (g = 0 → Instant.recent g st false = ⟨0⟩) := by
  refine ⟨fun hg => ?_, fun hg => ?_, fun hg => ?_, fun hg => ?_⟩
  · simp [Instant.recent, hg]
  · subst hg; simp [Instant.recent, Mock.recent]
  · subst hg; cases tls <;> simp [Instant.recent, Mock.recent, MockState.init]
  · subst hg; simp [Instant.recent, Mock.recent]

/-- Closed instance of `c1_recent` at concrete inputs. -/
theorem c1_recent_witness :
    Instant.recent 5 MockState.init true = ⟨5⟩ ∧
    Instant.recent 0 MockState.init false = ⟨0⟩ :=
  ⟨(c1_recent 5 MockState.init true).1 (by decide),
   (c1_recent 0 MockState.init false).2.2.2 rfl⟩

/-- C2 as stated is false at `a = b = Instant(0)`: with `a`'s integer ≤
`b`'s integer, `a.checked_duration_since(b)` is `some` (of the zero
duration), not `none`. -/
theorem c2_counterexample :
    (Instant.mk 0).val ≤ (Instant.mk 0).val ∧
    Instant.checked_duration_since ⟨0⟩ ⟨0⟩ ≠ none := by
  refine ⟨Nat.le_refl 0, ?_⟩
  simp [Instant.checked_duration_since, checked_sub_u64]

/-- C2 amended: for `a.val ≤ b.val`, `b.duration_since(a)` is the duration
of `(b - a)` nanoseconds, and `a.checked_duration_since(b)` is `none`
whenever `a.val` is strictly less than `b.val`. -/
theorem c2_amended (a b : Instant) (h : a.val ≤ b.val) :
    Instant.duration_since b a = some (Duration.from_nanos (b.val - a.val)) ∧
    (a.val < b.val → Instant.checked_duration_since a b = none) := by
  constructor
  · simp [Instant.duration_since, checked_sub_u64, h]
  · intro hlt
    simp [Instant.checked_duration_since, checked_sub_u64, Nat.not_le.mpr hlt]

/-- Closed instance of `c2_amended` at `a = Instant(3)`, `b = Instant(10)`. -/
theorem c2_amended_witness :
    Instant.duration_since ⟨10⟩ ⟨3⟩ = some (Duration.from_nanos 7) ∧
    Instant.checked_duration_since ⟨3⟩ ⟨10⟩ = none :=
  ⟨((c2_amended ⟨3⟩ ⟨10⟩ (by decide)).1),
   ((c2_amended ⟨3⟩ ⟨10⟩ (by decide)).2 (by decide))⟩

/-- C3: the operator forms of duration arithmetic (`+`, `-`, `+=`, `-=`)
reach the panic (modelled as `none`) exactly when the result overflows or
underflows the internal `u64`, and otherwise produce the exact (unwrapped)
value; the assign forms agree with the binary operators. -/
theorem c3_operator_overflow (t : Instant) (d : Duration) :
    (Instant.add t d = none ↔ U64_MOD ≤ t.val + d.into_nanos) ∧
    (U64_MOD ≤ t.val + d.into_nanos ∨
      Instant.add t d = some ⟨t.val + d.into_nanos⟩) ∧
    Instant.add_assign t d = Instant.add t d ∧
    (Instant.sub t d = none ↔ t.val < d.into_nanos) ∧
    (t.val < d.into_nanos ∨ Instant.sub t d = some ⟨t.val - d.into_nanos⟩) ∧
    Instant.sub_assign t d = Instant.sub t d := by
  refine ⟨?_, ?_, rfl, ?_, ?_, rfl⟩ <;>
    simp [Instant.add, Instant.sub, Instant.checked_add, Instant.checked_sub,
      checked_add_u64, checked_sub_u64] <;>
    omega

/-- C4: when `t + d` does not overflow the internal `u64`, `(t + d) - d`
recovers `t` exactly, both through the operator form and through
`checked_sub`. -/
theorem c4_roundtrip (t : Instant) (d : Duration)
    (h : t.val + d.into_nanos < U64_MOD) :
    (Instant.add t d).bind (fun u => Instant.sub u d) = some t ∧
    (Instant.add t d).bind (fun u => Instant.checked_sub u d) = some t := by
  have hadd : Instant.add t d = some ⟨t.val + d.into_nanos⟩ := by
    simp [Instant.add, Instant.checked_add, checked_add_u64, h]
  have hle : d.into_nanos ≤ t.val + d.into_nanos := Nat.le_add_left _ _
  constructor <;>
    simp [hadd, Instant.sub, Instant.checked_sub, checked_sub_u64, hle]

/-- Closed instance of `c4_roundtrip`: `t = Instant(1)`, `d` = 2 ns. -/
theorem c4_roundtrip_witness :
    (Instant.add ⟨1⟩ ⟨0, 2⟩).bind (fun u => Instant.sub u ⟨0, 2⟩) = some ⟨1⟩ ∧
    (Instant.add ⟨1⟩ ⟨0, 2⟩).bind (fun u => Instant.checked_sub u ⟨0, 2⟩) =
      some ⟨1⟩ :=
  c4_roundtrip ⟨1⟩ ⟨0, 2⟩ (by decide)

/-- C5 as stated is false: the `Duration -> u64` operand conversion does
not round when the duration exceeds the `u64` nanosecond range — it
truncates mod 2^64.  The duration of 18446744074 whole seconds exceeds
the range, yet converts to 290448384 ns, a smaller operand than the one
second duration yields, and not the saturated maximum. -/
theorem c5_counterexample :
    U64_MOD ≤ Duration.as_nanos ⟨18446744074, 0⟩ ∧
    Duration.into_nanos ⟨18446744074, 0⟩ = 290448384 ∧
    Duration.into_nanos ⟨18446744074, 0⟩ < Duration.into_nanos ⟨1, 0⟩ ∧
    Duration.into_nanos ⟨18446744074, 0⟩ ≠ U64_MOD - 1 := by
  refine ⟨?_, ?_, ?_, ?_⟩ <;> decide

/-- C5 amended: the conversion of a `Duration` operand to a raw `u64`
nanosecond count, as used by `checked_add`/`checked_sub` and the mock's
increment/decrement, truncates the 128-bit total nanosecond count to its
low 64 bits (the value mod 2^64) when the duration exceeds the `u64`
range; arithmetic then consumes that wrapped operand. -/
theorem c5_amended (d : Duration) :
    d.into_nanos = (d.secs * 1000000000 + d.nanos) % U64_MOD ∧
    Instant.checked_add ⟨0⟩ d = some ⟨(d.secs * 1000000000 + d.nanos) % U64_MOD⟩ := by
  have hlt : d.into_nanos < U64_MOD :=
    Nat.mod_lt _ (by decide)
  refine ⟨rfl, ?_⟩
  simp [Instant.checked_add, checked_add_u64, Duration.into_nanos,
    Duration.as_nanos] at hlt ⊢
  omega

/-- C6 as stated is false at `a = b = Instant(0)`: `saturating_duration_since`
returns the zero duration although `checked_duration_since` is `some`
(of the zero duration), not `none` — so "zero exactly when the checked
variant yields no value" fails. -/
theorem c6_counterexample :
    Instant.saturating_duration_since ⟨0⟩ ⟨0⟩ = Duration.zero ∧
    Instant.checked_duration_since ⟨0⟩ ⟨0⟩ ≠ none := by
  constructor <;> decide

/-- C6 amended: `saturating_duration_since` never panics (it is total):
it equals the checked variant's value whenever that is `some`, and equals
the zero duration whenever the checked variant is `none`. -/
theorem c6_amended (a b : Instant) :
    (∀ d, Instant.checked_duration_since a b = some d →
      Instant.saturating_duration_since a b = d) ∧
    (Instant.checked_duration_since a b = none →
      Instant.saturating_duration_since a b = Duration.zero) := by
  constructor
  · intro d hd
    simp [Instant.saturating_duration_since, hd]
  · intro hn
    simp [Instant.saturating_duration_since, hn]

/-- Closed instance of `c6_amended` at `(5, 2)` (some case) and `(0, 1)`
(none case). -/
theorem c6_amended_witness :
    Instant.saturating_duration_since ⟨5⟩ ⟨2⟩ = Duration.from_nanos 3 ∧
    Instant.saturating_duration_since ⟨0⟩ ⟨1⟩ = Duration.zero :=
  ⟨(c6_amended ⟨5⟩ ⟨2⟩).1 (Duration.from_nanos 3) (by decide),
   (c6_amended ⟨0⟩ ⟨1⟩).2 (by decide)⟩

/-- Reading a register through the same handle after `increment` sees the
wrapping sum. -/
theorem Mock.value_increment (m : Mock) (n : Nat) (st : MockState) :
    Mock.value m (Mock.increment m n st) = wrapping_add_u64 (Mock.value m st) n := by
  simp [Mock.value, Mock.increment]

/-- Reading a register through the same handle after `decrement` sees the
wrapping difference. -/
theorem Mock.value_decrement (m : Mock) (n : Nat) (st : MockState) :
    Mock.value m (Mock.decrement m n st) = wrapping_sub_u64 (Mock.value m st) n := by
  simp [Mock.value, Mock.decrement]

/-- C7: a freshly created `Mock` has `value() = 0`; after `increment 1500`
then `decrement 500` its value is 1000; a clone shares the register (so
observes the same value in every state); and `increment` adds the given
nanosecond amount to the register (wrapping at 2^64). -/
theorem c7_mock (st0 : MockState) :
    Mock.value (Mock.new st0).1 (Mock.new st0).2 = 0 ∧
    Mock.value (Mock.new st0).1
      (Mock.decrement (Mock.new st0).1 500
        (Mock.increment (Mock.new st0).1 1500 (Mock.new st0).2)) = 1000 ∧
    (∀ (m : Mock) (st : MockState),
      Mock.value (Mock.clone m) st = Mock.value m st) ∧
    (∀ (m : Mock) (n : Nat) (st : MockState),
      Mock.value m (Mock.increment m n st) = (Mock.value m st + n) % U64_MOD) := by
  refine ⟨?_, ?_, fun m st => rfl, fun m n st => ?_⟩
  · simp [Mock.new, Mock.value]
  · simp [Mock.new, Mock.value, Mock.increment, Mock.decrement,
      wrapping_add_u64, wrapping_sub_u64, U64_MOD]
  · simp [Mock.value_increment, wrapping_add_u64]

/-- C8: creating a second `Mock` on a thread supersedes the first: with
the process-wide cache unset, the fast-path read returns the second
mock's register value, and it is unaffected by any increment performed
through the first mock's handle (as is the second mock's value). -/
theorem c8_supersede (st0 : MockState) (n : Nat) :
    Instant.recent 0 (Mock.new (Mock.new st0).2).2 true
      = ⟨Mock.value (Mock.new (Mock.new st0).2).1 (Mock.new (Mock.new st0).2).2⟩ ∧
    Instant.recent 0
        (Mock.increment (Mock.new st0).1 n (Mock.new (Mock.new st0).2).2) true
      = ⟨Mock.value (Mock.new (Mock.new st0).2).1 (Mock.new (Mock.new st0).2).2⟩ ∧
    Mock.value (Mock.new (Mock.new st0).2).1
        (Mock.increment (Mock.new st0).1 n (Mock.new (Mock.new st0).2).2)
      = Mock.value (Mock.new (Mock.new st0).2).1 (Mock.new (Mock.new st0).2).2 := by
  have hne : st0.nextId + 1 ≠ st0.nextId := by omega
  refine ⟨?_, ?_, ?_⟩ <;>
    simp [Instant.recent, Mock.recent, Mock.new, Mock.value, Mock.increment, hne]

/-- C9: the order and equality on timestamps coincide with unsigned
integer comparison of the inner values, and form a strict total order
(irreflexive, transitive, trichotomous). -/
theorem c9_order (a b c : Instant) :
    (Instant.lt a b ↔ a.val < b.val) ∧
    (a = b ↔ a.val = b.val) ∧
    ¬ Instant.lt a a ∧
    (Instant.lt a b → Instant.lt b c → Instant.lt a c) ∧
    (Instant.lt a b ∨ a = b ∨ Instant.lt b a) := by
  have key : ∀ x y : Instant, Instant.lt x y ↔ x.val < y.val := by
    intro x y
    unfold Instant.lt Instant.cmp
    split
    · simp [*]
    · split <;> simp_all
  have keq : a = b ↔ a.val = b.val := by
    constructor
    · intro h; rw [h]
    · intro h; cases a; cases b; simpa using h
  refine ⟨key a b, keq, ?_, ?_, ?_⟩
  · simp [key]
  · intro h1 h2
    exact (key a c).mpr (Nat.lt_trans ((key a b).mp h1) ((key b c).mp h2))
  · rcases Nat.lt_trichotomy a.val b.val with h | h | h
    · exact Or.inl ((key a b).mpr h)
    · exact Or.inr (Or.inl (keq.mpr h))
    · exact Or.inr (Or.inr ((key b a).mpr h))

/-- Closed instance of `c9_order` on the spec's raw values 5, 10, 10,
plus a transitivity instance. -/
theorem c9_order_witness :
    Instant.lt ⟨5⟩ ⟨10⟩ ∧ (⟨10⟩ : Instant) = ⟨10⟩ ∧ Instant.lt ⟨5⟩ ⟨7⟩ :=
  ⟨(c9_order ⟨5⟩ ⟨10⟩ ⟨10⟩).1.mpr (by decide),
   (c9_order ⟨10⟩ ⟨10⟩ ⟨10⟩).2.1.mpr rfl,
   (c9_order ⟨5⟩ ⟨6⟩ ⟨7⟩).2.2.2.1
     ((c9_order ⟨5⟩ ⟨6⟩ ⟨7⟩).1.mpr (by decide))
     ((c9_order ⟨6⟩ ⟨7⟩ ⟨7⟩).1.mpr (by decide))⟩

/-- C10: when the register holds `v` and `n > v` (both valid `u64`
values), `decrement n` wraps: the new value is `(v - n)` modulo 2^64,
that is `v + 2^64 - n`. -/
theorem c10_decrement_wraps (m : Mock) (st : MockState) (n : Nat)
    (hv : Mock.value m st < U64_MOD) (hn : n < U64_MOD)
    (h : Mock.value m st < n) :
    Mock.value m (Mock.decrement m n st) = Mock.value m st + U64_MOD - n ∧
    (Mock.value m (Mock.decrement m n st) : Int) =
      ((Mock.value m st : Int) - (n : Int)) % (U64_MOD : Int) := by
  simp only [Mock.value_decrement, wrapping_sub_u64, U64_MOD] at *
  constructor
  · omega
  · omega

/-- Closed instance of `c10_decrement_wraps`: decrementing 5 from a fresh
register holding 0 wraps to 2^64 - 5. -/
theorem c10_decrement_wraps_witness :
    Mock.value ⟨0⟩ (Mock.decrement ⟨0⟩ 5 MockState.init) = 18446744073709551611 := by
  have h := c10_decrement_wraps ⟨0⟩ MockState.init 5 (by decide) (by decide) (by decide)
  simpa [MockState.init, Mock.value, U64_MOD] using h.1
